import Mathlib

/-!
Verification of the smart technical-analysis signal pipeline
(`advanced_technical_analysis.py`, class `SmartTechnicalAnalyzer`).

Shallow embedding conventions:
* Python floats are modelled as exact rationals (`ℚ`).  The numeric
  literals of the source (0.01, 0.4, 75.0, ...) are exact decimals, so
  nothing is lost at the inputs the claims speak about.
* A possibly missing or NaN indicator value is modelled as `Option ℚ`
  with `none` for NaN/missing; every comparison against `none` is false,
  exactly as IEEE-754 (and hence Python) comparisons with NaN are.
  The per-indicator vote functions are therefore defined on `Option ℚ`
  and the main pipeline applies them to `some`-wrapped snapshot fields.
* Python dicts keyed by asset id (`active_signals`,
  `signal_accuracy_log`) are modelled as functions
  `String → Option _`, with pointwise update for dict assignment.
* Mutation of `self` is modelled by explicit state passing: every
  stateful method returns the new `AnalyzerState`.
* The free-text fields `technical_reasoning` and the
  `indicators_consensus` dict of the emitted signal are not modelled:
  no claim mentions them and they influence no control flow.
* Each `return None` site of `generate_smart_signal` is tagged with a
  distinct `AbstainReason` (the reasons named by the code comments and
  the spec); `return None` corresponds to `.error r`.
-/

namespace DHKY

/-- Trend direction enum of the source (`TrendDirection`, lines 19-22). -/
inductive TrendDirection where
  | uptrend
  | downtrend
  | sideways
deriving DecidableEq, Repr

/-- Signal type enum of the source (`SignalType`, lines 24-27). -/
inductive SignalType where
  | buy
  | sell
  | hold
deriving DecidableEq, Repr

/-- Vote sentiment strings used in `analyze_trend_stability`. -/
inductive Sentiment where
  | bullish
  | bearish
  | neutral
  | overbought
  | oversold
deriving DecidableEq, Repr

/-- Abstain reasons, one per `return None` site of
`generate_smart_signal` (lines 209, 215, 223, 229, 246, 261, 269),
named as in the code comments and the spec. -/
inductive AbstainReason where
  | locked
  | unstableMarket
  | unclearTrend
  | excessiveVolatility
  | lowConfidence
  | sidewaysDirection
  | poorRiskReward
deriving DecidableEq, Repr

/-- `MarketState` dataclass (lines 29-41).  All fields rational; a
NaN/missing field is modelled at the vote layer by wrapping in
`Option`. -/
structure MarketState where
  price : ℚ
  rsi : ℚ
  macd : ℚ
  bollinger_upper : ℚ
  bollinger_lower : ℚ
  volume_sma : ℚ
  atr : ℚ
  stochastic : ℚ
  williams_r : ℚ
  timestamp : ℚ
deriving DecidableEq, Repr

/-- `TechnicalSignal` dataclass (lines 43-58), minus the two purely
descriptive fields (`technical_reasoning`, `indicators_consensus`).
`confidence` holds `min(98, int(adjusted_confidence))`, an integer. -/
structure TechnicalSignal where
  asset_id : String
  signal_type : SignalType
  confidence : ℤ
  trend : TrendDirection
  entry_price : ℚ
  stop_loss : ℚ
  take_profit : ℚ
  timestamp : ℚ
  riskReward : ℚ
  volatility_score : ℚ
  locked_until : ℚ
deriving DecidableEq, Repr

/-- The `learning_weights` dict (lines 67-74): one rational weight per
indicator, in the fixed key set of the source. -/
structure Weights where
  rsi : ℚ
  macd : ℚ
  bollinger : ℚ
  volume : ℚ
  stochastic : ℚ
  williams_r : ℚ
deriving DecidableEq, Repr

/-- Default weights set in `__init__` (lines 67-74). -/
def defaultWeights : Weights :=
  { rsi := 0.2, macd := 0.25, bollinger := 0.2,
    volume := 0.15, stochastic := 0.1, williams_r := 0.1 }

/-- Sum of the six weights (`sum(self.learning_weights.values())`). -/
def wsum (w : Weights) : ℚ :=
  w.rsi + w.macd + w.bollinger + w.volume + w.stochastic + w.williams_r

/-- Per-asset entry of `signal_accuracy_log` (lines 353-354). -/
structure AccuracyStats where
  accuracy : ℚ
  count : ℕ
  total_profit : ℚ
deriving DecidableEq, Repr

/-- The `performance_stats` dict (lines 83-88). -/
structure PerformanceStats where
  total_signals : ℕ
  successful_signals : ℕ
  accuracy_rate : ℚ
  avg_profit_loss : ℚ
deriving DecidableEq, Repr

/-- Mutable state of a `SmartTechnicalAnalyzer` instance.  The unused
`historical_signals` list and the never-read `min_signal_interval`
setting are omitted; the two threshold settings are constants below
because nothing ever mutates them. -/
structure AnalyzerState where
  active_signals : String → Option TechnicalSignal
  signal_accuracy_log : String → Option AccuracyStats
  learning_weights : Weights
  performance_stats : PerformanceStats

/-- `self.trend_stability_threshold = 0.7` (line 78). -/
def trend_stability_threshold : ℚ := 0.7

/-- `self.confidence_threshold = 75.0` (line 79). -/
def confidence_threshold : ℚ := 75

/-- Fresh analyzer state as built by `__init__`. -/
def initState : AnalyzerState :=
  { active_signals := fun _ => none,
    signal_accuracy_log := fun _ => none,
    learning_weights := defaultWeights,
    performance_stats :=
      { total_signals := 0, successful_signals := 0,
        accuracy_rate := 0, avg_profit_loss := 0 } }

/-! ### Vote engine (lines 136-172 of `analyze_trend_stability`)

Comparisons on `Option ℚ` return `false` when a side is `none`,
mirroring IEEE comparisons with NaN. -/

/-- `a > c` with NaN-is-false semantics. -/
def oGT (a : Option ℚ) (c : ℚ) : Bool :=
  match a with
  | some x => decide (x > c)
  | none => false

/-- `a < c` with NaN-is-false semantics. -/
def oLT (a : Option ℚ) (c : ℚ) : Bool :=
  match a with
  | some x => decide (x < c)
  | none => false

/-- `lo <= a <= hi` with NaN-is-false semantics. -/
def oBetween (lo : ℚ) (a : Option ℚ) (hi : ℚ) : Bool :=
  match a with
  | some x => decide (lo ≤ x ∧ x ≤ hi)
  | none => false

/-- `a > b` on two possibly-NaN values. -/
def oGTo (a b : Option ℚ) : Bool :=
  match a, b with
  | some x, some y => decide (x > y)
  | _, _ => false

/-- `a < b` on two possibly-NaN values. -/
def oLTo (a b : Option ℚ) : Bool :=
  match a, b with
  | some x, some y => decide (x < y)
  | _, _ => false

/-- RSI vote (lines 139-148). -/
def rsi_vote (rsi : Option ℚ) : Sentiment × ℚ :=
  if oGT rsi 70 then (.overbought, 0.8)
  else if oLT rsi 30 then (.oversold, 0.8)
  else if oBetween 45 rsi 55 then (.neutral, 0.6)
  else if oGT rsi 55 then (.bullish, 0.7)
  else (.bearish, 0.7)

/-- MACD vote (lines 151-156). -/
def macd_vote (macd : Option ℚ) : Sentiment × ℚ :=
  if oGT macd 0 then (.bullish, 0.8)
  else if oLT macd 0 then (.bearish, 0.8)
  else (.neutral, 0.5)

/-- Bollinger-band vote (lines 159-164). -/
def bollinger_vote (price upper lower : Option ℚ) : Sentiment × ℚ :=
  if oGTo price upper then (.overbought, 0.9)
  else if oLTo price lower then (.oversold, 0.9)
  else (.neutral, 0.6)

/-- Stochastic vote (lines 167-172). -/
def stochastic_vote (s : Option ℚ) : Sentiment × ℚ :=
  if oGT s 80 then (.overbought, 0.7)
  else if oLT s 20 then (.oversold, 0.7)
  else (.neutral, 0.5)

/-! ### Confluence scoring (lines 174-199) -/

/-- The three accumulator buckets of lines 175-177. -/
structure Scores where
  bullish : ℚ
  bearish : ℚ
  neutral : ℚ
deriving DecidableEq, Repr

/-- One iteration of the vote loop (lines 179-188): add the weighted
confidence of one vote to its bucket. -/
def bucket_add (acc : Scores) (v : Sentiment × ℚ) (weight : ℚ) : Scores :=
  if v.1 = .bullish ∨ v.1 = .oversold then
    { acc with bullish := acc.bullish + v.2 * weight }
  else if v.1 = .bearish ∨ v.1 = .overbought then
    { acc with bearish := acc.bearish + v.2 * weight }
  else
    { acc with neutral := acc.neutral + v.2 * weight }

/-- The vote loop over the four indicators in the dict order
`rsi, macd, bollinger, stochastic` of the source. -/
def trend_scores (w : Weights) (ms : MarketState) : Scores :=
  let s1 := bucket_add ⟨0, 0, 0⟩ (rsi_vote (some ms.rsi)) w.rsi
  let s2 := bucket_add s1 (macd_vote (some ms.macd)) w.macd
  let s3 := bucket_add s2
    (bollinger_vote (some ms.price) (some ms.bollinger_upper) (some ms.bollinger_lower))
    w.bollinger
  bucket_add s3 (stochastic_vote (some ms.stochastic)) w.stochastic

/-- `bullish_score + bearish_score + neutral_score`, the divisor of
line 192. -/
def scores_total (s : Scores) : ℚ := s.bullish + s.bearish + s.neutral

/-- `analyze_trend_stability` (lines 133-199): final direction and the
stability score `max_score / (bullish + bearish + neutral)`. -/
def analyze_trend_stability (w : Weights) (ms : MarketState) :
    TrendDirection × ℚ :=
  let s := trend_scores w ms
  let max_score := max s.bullish (max s.bearish s.neutral)
  let stability := max_score / scores_total s
  if max_score = s.bullish ∧ stability > trend_stability_threshold then
    (.uptrend, stability)
  else if max_score = s.bearish ∧ stability > trend_stability_threshold then
    (.downtrend, stability)
  else
    (.sideways, stability)

/-! ### Market stability, clarity and volatility checks -/

/-- Result of `_assess_market_stability` (the `reason` string is
dropped; it influences nothing). -/
structure StabilityAssessment where
  isStable : Bool
  stabilityScore : ℚ
  volatilityRel : ℚ
deriving DecidableEq, Repr

/-- `_assess_market_stability` (lines 407-459).  The four partial
scores are appended to a list and averaged; here they are summed and
divided by 4 directly. -/
def assess_market_stability (ms : MarketState) : StabilityAssessment :=
  let volatility_rel := ms.atr / ms.price
  let s1 : ℚ :=
    if volatility_rel < 0.02 then 0.8
    else if volatility_rel < 0.05 then 0.6
    else 0.2
  let s2 : ℚ :=
    if 35 ≤ ms.rsi ∧ ms.rsi ≤ 65 then 0.9
    else if 25 ≤ ms.rsi ∧ ms.rsi ≤ 75 then 0.6
    else 0.3
  let bollinger_position :=
    (ms.price - ms.bollinger_lower) / (ms.bollinger_upper - ms.bollinger_lower)
  let s3 : ℚ :=
    if 0.3 ≤ bollinger_position ∧ bollinger_position ≤ 0.7 then 0.8
    else if 0.2 ≤ bollinger_position ∧ bollinger_position ≤ 0.8 then 0.6
    else 0.2
  let s4 : ℚ :=
    if 30 ≤ ms.stochastic ∧ ms.stochastic ≤ 70 then 0.7
    else 0.3
  let stability_score := (s1 + s2 + s3 + s4) / 4
  { isStable := decide (stability_score > 0.6),
    stabilityScore := stability_score,
    volatilityRel := volatility_rel }

/-- Result of `_assess_trend_clarity` (`reason` string dropped). -/
structure ClarityAssessment where
  isClear : Bool
  clarityScore : ℚ
deriving DecidableEq, Repr

/-- `_assess_trend_clarity` (lines 461-501). -/
def assess_trend_clarity (trend : TrendDirection) (stability : ℚ)
    (ms : MarketState) : ClarityAssessment :=
  let f1 := stability
  let f2 : ℚ :=
    if trend = .uptrend ∧ ms.macd > 0 then 0.8
    else if trend = .downtrend ∧ ms.macd < 0 then 0.8
    else if trend = .sideways ∧ |ms.macd| < 0.001 then 0.6
    else 0.3
  let f3 : ℚ :=
    if trend = .uptrend ∧ ms.rsi > 50 then 0.7
    else if trend = .downtrend ∧ ms.rsi < 50 then 0.7
    else if trend = .sideways ∧ 45 ≤ ms.rsi ∧ ms.rsi ≤ 55 then 0.8
    else 0.4
  let clarity_score := (f1 + f2 + f3) / 3
  { isClear := decide (clarity_score > 0.65) && decide (trend ≠ .sideways),
    clarityScore := clarity_score }

/-- Volatility level labels of `_check_volatility_levels`. -/
inductive VolLevel where
  | extreme
  | high
  | acceptable
deriving DecidableEq, Repr

/-- Result of `_check_volatility_levels`. -/
structure VolatilityCheck where
  tooVolatile : Bool
  level : VolLevel
  volQuot : ℚ
deriving DecidableEq, Repr

/-- `_check_volatility_levels` (lines 503-514). -/
def check_volatility_levels (ms : MarketState) : VolatilityCheck :=
  let r := ms.atr / ms.price
  if r > 0.08 then { tooVolatile := true, level := .extreme, volQuot := r }
  else if r > 0.05 then { tooVolatile := true, level := .high, volQuot := r }
  else { tooVolatile := false, level := .acceptable, volQuot := r }

/-! ### Adaptive weight store (lines 375-393) -/

/-- Win branch of `_update_indicator_weights` (lines 381-384):
every weight raised by the 0.01 learning rate, capped at 0.4. -/
def win_adjusted (w : Weights) : Weights :=
  { rsi := min 0.4 (w.rsi + 0.01),
    macd := min 0.4 (w.macd + 0.01),
    bollinger := min 0.4 (w.bollinger + 0.01),
    volume := min 0.4 (w.volume + 0.01),
    stochastic := min 0.4 (w.stochastic + 0.01),
    williams_r := min 0.4 (w.williams_r + 0.01) }

/-- Loss branch of `_update_indicator_weights` (lines 385-388):
every weight lowered by the 0.01 learning rate, floored at 0.05. -/
def loss_adjusted (w : Weights) : Weights :=
  { rsi := max 0.05 (w.rsi - 0.01),
    macd := max 0.05 (w.macd - 0.01),
    bollinger := max 0.05 (w.bollinger - 0.01),
    volume := max 0.05 (w.volume - 0.01),
    stochastic := max 0.05 (w.stochastic - 0.01),
    williams_r := max 0.05 (w.williams_r - 0.01) }

/-- Renormalization step (lines 390-393): divide every weight by the
current total. -/
def renormalized (w : Weights) : Weights :=
  let total := wsum w
  { rsi := w.rsi / total,
    macd := w.macd / total,
    bollinger := w.bollinger / total,
    volume := w.volume / total,
    stochastic := w.stochastic / total,
    williams_r := w.williams_r / total }

/-- `_update_indicator_weights(outcome)` (lines 375-393). -/
def update_indicator_weights (outcome : ℚ) (w : Weights) : Weights :=
  renormalized (if outcome > 0 then win_adjusted w else loss_adjusted w)

/-- One losing-feedback weight update (`outcome = -1`). -/
def lossStep (w : Weights) : Weights := update_indicator_weights (-1) w

/-! ### Learning-system update (lines 349-373) -/

/-- `update_learning_system(asset_id, signal_timestamp, actual_outcome)`
(lines 349-373).  Note the `signal_timestamp` argument is accepted and
never used, as in the source. -/
def update_learning_system (σ : AnalyzerState) (asset_id : String)
    (_signal_timestamp : ℚ) (actual_outcome : ℚ) : AnalyzerState :=
  let stats0 := (σ.signal_accuracy_log asset_id).getD
    { accuracy := 0.7, count := 0, total_profit := 0 }
  let stats1 := { stats0 with
    count := stats0.count + 1,
    total_profit := stats0.total_profit + actual_outcome }
  let successful :=
    if actual_outcome > 0 then σ.performance_stats.successful_signals + 1
    else σ.performance_stats.successful_signals
  let new_accuracy : ℚ :=
    (successful : ℚ) / (σ.performance_stats.total_signals : ℚ)
  let stats2 := { stats1 with accuracy := new_accuracy }
  { σ with
    signal_accuracy_log := fun k =>
      if k = asset_id then some stats2 else σ.signal_accuracy_log k,
    learning_weights := update_indicator_weights actual_outcome σ.learning_weights,
    performance_stats := { σ.performance_stats with
      successful_signals := successful,
      accuracy_rate := new_accuracy,
      avg_profit_loss := stats2.total_profit / (stats2.count : ℚ) } }

/-! ### Signal gate (`generate_smart_signal`, lines 201-309) -/

/-- Lock check of lines 206-209: an asset is blocked when it has an
active signal whose `locked_until` lies in the future. -/
def lock_blocked (σ : AnalyzerState) (asset_id : String) (now : ℚ) : Bool :=
  match σ.active_signals asset_id with
  | some sig => decide (now < sig.locked_until)
  | none => false

/-- Risk/reward computation of lines 264-266. -/
def risk_reward_value (entry stop_loss take_profit : ℚ) : ℚ :=
  let risk := |entry - stop_loss|
  let reward := |take_profit - entry|
  if risk > 0 then reward / risk else 0

/-- Smart lock duration of lines 271-277:
`max(300, min(2400, 600 + vol*1200 + (1 - stability)*600))`. -/
def lock_duration_of (volatility_rel stability_score : ℚ) : ℚ :=
  max 300 (min 2400 (600 + volatility_rel * 1200 + (1 - stability_score) * 600))

/-- Python `int()` truncation toward zero on a rational. -/
def py_int (q : ℚ) : ℤ :=
  if q < 0 then -⌊-q⌋ else ⌊q⌋

/-- Stored signal confidence of line 283: `min(98, int(adjusted))`. -/
def stored_confidence (adjusted : ℚ) : ℤ :=
  min 98 (py_int adjusted)

/-- `signal_accuracy_log.get(asset_id, {'accuracy': 0.7, ...})['accuracy']`
(line 235). -/
def accuracy_of (σ : AnalyzerState) (asset_id : String) : ℚ :=
  match σ.signal_accuracy_log asset_id with
  | some st => st.accuracy
  | none => 0.7

/-- Steps 8-11 of `generate_smart_signal` (lines 263-309), reached with
the chosen signal type and price levels: the risk/reward gate, then
signal construction, lock acquisition and stats bump. -/
def emit_checked (σ : AnalyzerState) (asset_id : String) (ms : MarketState)
    (now : ℚ) (mstab : StabilityAssessment) (trend : TrendDirection)
    (adjusted : ℚ) (signal_type : SignalType)
    (entry stop_loss take_profit : ℚ) :
    Except AbstainReason TechnicalSignal × AnalyzerState :=
  let rr := risk_reward_value entry stop_loss take_profit
  if rr < 2 then (.error .poorRiskReward, σ)
  else
    let volatility_score := ms.atr / ms.price
    let lock_dur := lock_duration_of volatility_score mstab.stabilityScore
    let sig : TechnicalSignal :=
      { asset_id := asset_id, signal_type := signal_type,
        confidence := stored_confidence adjusted, trend := trend,
        entry_price := entry, stop_loss := stop_loss,
        take_profit := take_profit, timestamp := now,
        riskReward := rr, volatility_score := volatility_score,
        locked_until := now + lock_dur }
    (.ok sig,
      { σ with
        active_signals := fun k =>
          if k = asset_id then some sig else σ.active_signals k,
        performance_stats := { σ.performance_stats with
          total_signals := σ.performance_stats.total_signals + 1 } })

/-- `generate_smart_signal(asset_id, market_state)` (lines 201-309)
with the implicit `time.time()` passed explicitly as `now`.
`.error r` stands for the `return None` at the rejection site `r`. -/
def generate_smart_signal (σ : AnalyzerState) (asset_id : String)
    (ms : MarketState) (now : ℚ) :
    Except AbstainReason TechnicalSignal × AnalyzerState :=
  if lock_blocked σ asset_id now then (.error .locked, σ)
  else
    let mstab := assess_market_stability ms
    if mstab.isStable = false then (.error .unstableMarket, σ)
    else
      let tr := analyze_trend_stability σ.learning_weights ms
      let clarity := assess_trend_clarity tr.1 tr.2 ms
      if clarity.isClear = false then (.error .unclearTrend, σ)
      else
        let vol := check_volatility_levels ms
        if vol.tooVolatile then (.error .excessiveVolatility, σ)
        else
          let base_confidence := tr.2 * 100
          let learning_factor := min 1.2 (max 0.8 (accuracy_of σ asset_id))
          let stability_bonus := mstab.stabilityScore * 0.1
          let clarity_bonus := clarity.clarityScore * 0.1
          let adjusted := base_confidence * learning_factor
            + stability_bonus + clarity_bonus
          if adjusted < confidence_threshold then (.error .lowConfidence, σ)
          else
            if tr.1 = TrendDirection.uptrend ∧ clarity.isClear then
              emit_checked σ asset_id ms now mstab tr.1 adjusted .buy
                ms.price (ms.price - ms.atr * 2) (ms.price + ms.atr * 3)
            else if tr.1 = TrendDirection.downtrend ∧ clarity.isClear then
              emit_checked σ asset_id ms now mstab tr.1 adjusted .sell
                ms.price (ms.price + ms.atr * 2) (ms.price - ms.atr * 3)
            else (.error .sidewaysDirection, σ)

/-- `clean_expired_signals` (lines 549-558): drop every active signal
whose lock has expired. -/
def clean_expired_signals (σ : AnalyzerState) (now : ℚ) : AnalyzerState :=
  { σ with
    active_signals := fun k =>
      match σ.active_signals k with
      | some s => if now > s.locked_until then none else some s
      | none => none }

/-! ### Operation traces over the analyzer state -/

/-- One externally triggered operation on the analyzer. -/
inductive Op where
  | evaluate (asset : String) (ms : MarketState) (t : ℚ)
  | cleanup (t : ℚ)
  | feedback (asset : String) (ts outcome : ℚ)

/-- Apply one operation to the state. -/
def apply_op (σ : AnalyzerState) : Op → AnalyzerState
  | .evaluate a ms t => (generate_smart_signal σ a ms t).2
  | .cleanup t => clean_expired_signals σ t
  | .feedback a ts o => update_learning_system σ a ts o

/-- Run a list of operations left to right. -/
def run_ops (σ : AnalyzerState) (ops : List Op) : AnalyzerState :=
  ops.foldl apply_op σ

/-- An operation happens strictly before time `u` (feedback carries no
evaluation time, so it is unconstrained). -/
def op_ok (u : ℚ) : Op → Bool
  | .evaluate _ _ t => decide (t < u)
  | .cleanup t => decide (t < u)
  | .feedback _ _ _ => true

/-! ### Concrete inputs used by the claims -/

/-- Scenario A snapshot of the spec: rsi 25, macd 0.4, price 100,
Bollinger band [98, 102], stochastic 18, atr 1.0 (volume and
Williams %R are not constrained by the scenario and unused). -/
def scenarioA_market : MarketState :=
  { price := 100, rsi := 25, macd := 0.4,
    bollinger_upper := 102, bollinger_lower := 98,
    volume_sma := 1, atr := 1, stochastic := 18,
    williams_r := -50, timestamp := 0 }

/-- A fully neutral snapshot: every indicator votes neutral, so the
confluence direction is sideways. -/
def neutral_market : MarketState :=
  { price := 100, rsi := 50, macd := 0,
    bollinger_upper := 102, bollinger_lower := 98,
    volume_sma := 1, atr := 1, stochastic := 50,
    williams_r := -50, timestamp := 0 }

/-- A concrete active signal locking the asset until time 1000. -/
def lock_demo_signal : TechnicalSignal :=
  { asset_id := "BTC", signal_type := .buy, confidence := 90,
    trend := .uptrend, entry_price := 100, stop_loss := 98,
    take_profit := 103, timestamp := 0, riskReward := 1.5,
    volatility_score := 0.01, locked_until := 1000 }

/-- Analyzer state holding the demo lock for asset BTC. -/
def locked_state : AnalyzerState :=
  { initState with
    active_signals := fun k =>
      if k = "BTC" then some lock_demo_signal else none }

/-- A demo trace: a cleanup, a losing feedback and an evaluation of a
different asset, all before the lock expiry. -/
def demo_ops : List Op :=
  [.cleanup 400, .feedback "BTC" 100 (-1), .evaluate "ETH" scenarioA_market 500]

/-- The weight invariant that actually holds after every feedback call:
weights sum to 1 and every weight is at least the 0.05 floor. -/
def weights_ok (w : Weights) : Prop :=
  wsum w = 1 ∧
  0.05 ≤ w.rsi ∧ 0.05 ≤ w.macd ∧ 0.05 ≤ w.bollinger ∧
  0.05 ≤ w.volume ∧ 0.05 ≤ w.stochastic ∧ 0.05 ≤ w.williams_r

/-- Before renormalization, a loss step lowers every weight or leaves
it at the 0.05 floor. -/
def decrements_or_floors (w : Weights) : Prop :=
  ((loss_adjusted w).rsi < w.rsi ∨ (loss_adjusted w).rsi = 0.05) ∧
  ((loss_adjusted w).macd < w.macd ∨ (loss_adjusted w).macd = 0.05) ∧
  ((loss_adjusted w).bollinger < w.bollinger ∨ (loss_adjusted w).bollinger = 0.05) ∧
  ((loss_adjusted w).volume < w.volume ∨ (loss_adjusted w).volume = 0.05) ∧
  ((loss_adjusted w).stochastic < w.stochastic ∨ (loss_adjusted w).stochastic = 0.05) ∧
  ((loss_adjusted w).williams_r < w.williams_r ∨ (loss_adjusted w).williams_r = 0.05)

instance (w : Weights) : Decidable (weights_ok w) := by
  unfold weights_ok
  infer_instance

instance (w : Weights) : Decidable (decrements_or_floors w) := by
  unfold decrements_or_floors
  infer_instance

end DHKY

deriving instance DecidableEq for Except

namespace DHKY

/-! ## Helper lemmas -/

/-- For a BUY candidate the code sets `stop = entry - 2*atr` and
`tp = entry + 3*atr`, so the risk/reward quotient is 1.5 (or 0 when
`atr = 0`), always below the 2.0 gate. -/
lemma rr_buy_lt_two (p a : ℚ) :
    risk_reward_value p (p - a * 2) (p + a * 3) < 2 := by
  simp only [risk_reward_value]
  have h1 : p - (p - a * 2) = a * 2 := by ring
  have h2 : p + a * 3 - p = a * 3 := by ring
  rw [h1, h2]
  by_cases h : |a * 2| > 0
  · rw [if_pos h]
    rw [div_lt_iff₀ h]
    rw [abs_mul, abs_mul] at *
    have ha : (0:ℚ) < |a| := by
      by_contra hc
      push_neg at hc
      have : |a| = 0 := le_antisymm hc (abs_nonneg a)
      rw [this] at h
      norm_num at h
    rw [show |(2:ℚ)| = 2 by norm_num, show |(3:ℚ)| = 3 by norm_num] at *
    linarith
  · rw [if_neg h]; norm_num

/-- SELL counterpart of `rr_buy_lt_two`. -/
lemma rr_sell_lt_two (p a : ℚ) :
    risk_reward_value p (p + a * 2) (p - a * 3) < 2 := by
  simp only [risk_reward_value]
  have h1 : p - (p + a * 2) = -(a * 2) := by ring
  have h2 : p - a * 3 - p = -(a * 3) := by ring
  rw [h1, h2, abs_neg, abs_neg]
  by_cases h : |a * 2| > 0
  · rw [if_pos h]
    rw [div_lt_iff₀ h]
    rw [abs_mul, abs_mul] at *
    have ha : (0:ℚ) < |a| := by
      by_contra hc
      push_neg at hc
      have : |a| = 0 := le_antisymm hc (abs_nonneg a)
      rw [this] at h
      norm_num at h
    rw [show |(2:ℚ)| = 2 by norm_num, show |(3:ℚ)| = 3 by norm_num] at *
    linarith
  · rw [if_neg h]; norm_num

/-- When the risk/reward quotient is below 2, steps 8-11 reject with
`poorRiskReward` and leave the state untouched. -/
lemma emit_checked_reject (σ : AnalyzerState) (asset_id : String)
    (ms : MarketState) (now : ℚ) (mstab : StabilityAssessment)
    (trend : TrendDirection) (adjusted : ℚ) (ty : SignalType)
    (entry stop tp : ℚ) (h : risk_reward_value entry stop tp < 2) :
    emit_checked σ asset_id ms now mstab trend adjusted ty entry stop tp =
      (.error .poorRiskReward, σ) := by
  simp only [emit_checked]
  rw [if_pos h]

/-- The signal gate always abstains: the hardcoded 2x/3x ATR price
levels bound the risk/reward quotient by 1.5, below the 2.0 gate, so
the emission branch of `generate_smart_signal` is unreachable and
every call returns a rejection with the input state unchanged. -/
lemma gss_always_abstains (σ : AnalyzerState) (asset_id : String)
    (ms : MarketState) (now : ℚ) :
    ∃ r, generate_smart_signal σ asset_id ms now = (.error r, σ) := by
  simp only [generate_smart_signal]
  split
  · exact ⟨_, rfl⟩
  · split
    · exact ⟨_, rfl⟩
    · split
      · exact ⟨_, rfl⟩
      · split
        · exact ⟨_, rfl⟩
        · split
          · exact ⟨_, rfl⟩
          · split
            · exact ⟨_, emit_checked_reject _ _ _ _ _ _ _ _ _ _ _
                (rr_buy_lt_two _ _)⟩
            · split
              · exact ⟨_, emit_checked_reject _ _ _ _ _ _ _ _ _ _ _
                  (rr_sell_lt_two _ _)⟩
              · exact ⟨_, rfl⟩

/-- `generate_smart_signal` never changes the analyzer state. -/
lemma gss_state_fixed (σ : AnalyzerState) (asset_id : String)
    (ms : MarketState) (now : ℚ) :
    (generate_smart_signal σ asset_id ms now).2 = σ := by
  obtain ⟨r, hr⟩ := gss_always_abstains σ asset_id ms now
  rw [hr]

end DHKY

namespace DHKY

/-- Applying one trace operation that happens before the lock expiry
keeps the locked entry of the active-signal table unchanged. -/
lemma apply_op_keeps_lock {σ : AnalyzerState} {A : String}
    {sig : TechnicalSignal} (op : Op)
    (hA : σ.active_signals A = some sig)
    (hop : op_ok sig.locked_until op = true) :
    (apply_op σ op).active_signals A = some sig := by
  cases op with
  | evaluate a ms t =>
      show ((generate_smart_signal σ a ms t).2).active_signals A = some sig
      rw [gss_state_fixed]
      exact hA
  | cleanup t =>
      show (clean_expired_signals σ t).active_signals A = some sig
      have ht : t < sig.locked_until := of_decide_eq_true hop
      simp only [clean_expired_signals, hA]
      rw [if_neg (by linarith : ¬ t > sig.locked_until)]
  | feedback a ts o =>
      show (update_learning_system σ a ts o).active_signals A = some sig
      simp only [update_learning_system]
      exact hA

/-- Running a trace of operations that all happen before the lock
expiry keeps the locked entry unchanged. -/
lemma run_ops_keeps_lock {σ : AnalyzerState} {A : String}
    {sig : TechnicalSignal} (ops : List Op)
    (hA : σ.active_signals A = some sig)
    (hops : ∀ op ∈ ops, op_ok sig.locked_until op = true) :
    (run_ops σ ops).active_signals A = some sig := by
  induction ops generalizing σ with
  | nil => exact hA
  | cons op rest ih =>
      simp only [run_ops, List.foldl_cons] at *
      exact ih (apply_op_keeps_lock op hA (hops op (by simp)))
        (fun o ho => hops o (by simp [ho]))

/-- C1: for the Scenario A input on a fresh analyzer,
`generate_smart_signal` does NOT emit: it rejects at the confidence
gate (the learning factor for an unseen asset is clamped to 0.8, so
the adjusted confidence is about 62.67, below the 75 threshold) and
leaves the state unchanged; moreover the risk/reward value the
emission path would compute for this input is exactly 1.5, below the
2.0 gate, so the claimed risk/reward check cannot pass. -/
theorem c1_scenarioA_rejected :
    (generate_smart_signal initState "EURUSD" scenarioA_market 0).1 =
      .error .lowConfidence ∧
    (generate_smart_signal initState "EURUSD" scenarioA_market 0).2 =
      initState ∧
    risk_reward_value scenarioA_market.price
      (scenarioA_market.price - scenarioA_market.atr * 2)
      (scenarioA_market.price + scenarioA_market.atr * 3) = 3 / 2 := by
  refine ⟨by with_unfolding_all decide, gss_state_fixed _ _ _ _,
    by with_unfolding_all decide⟩

/-- C3: if the active-signal table holds a lock for asset `A` with
expiry `u` (the state an emission would leave behind), then after any
trace of evaluations, cleanups and feedback calls happening before
`u`, an evaluation of `A` at any time `t < u` is rejected with reason
`locked`. -/
theorem c3_lock_exclusivity (σ : AnalyzerState) (A : String)
    (sig : TechnicalSignal) (ops : List Op) (ms : MarketState) (t : ℚ)
    (hA : σ.active_signals A = some sig)
    (hops : ∀ op ∈ ops, op_ok sig.locked_until op = true)
    (ht : t < sig.locked_until) :
    (generate_smart_signal (run_ops σ ops) A ms t).1 = .error .locked := by
  have hA2 := run_ops_keeps_lock ops hA hops
  have hb : lock_blocked (run_ops σ ops) A t = true := by
    unfold lock_blocked
    rw [hA2]
    exact decide_eq_true ht
  simp [generate_smart_signal, hb]

set_option maxRecDepth 10000 in
/-- C3 witness: concrete lock on BTC until time 1000, a demo trace
before that, and an evaluation at time 700 rejected as locked. -/
theorem c3_lock_exclusivity_witness :
    (generate_smart_signal (run_ops locked_state demo_ops) "BTC"
      neutral_market 700).1 = .error .locked :=
  c3_lock_exclusivity locked_state "BTC" lock_demo_signal demo_ops
    neutral_market 700 (by with_unfolding_all decide)
    (by with_unfolding_all decide) (by with_unfolding_all decide)

/-- C6: whenever the confluence direction computed for the snapshot is
sideways, the evaluation never emits a signal: the call returns a
rejection. -/
theorem c6_sideways_never_emits (σ : AnalyzerState) (asset_id : String)
    (ms : MarketState) (now : ℚ)
    (_h : (analyze_trend_stability σ.learning_weights ms).1 =
      TrendDirection.sideways) :
    ∃ r, (generate_smart_signal σ asset_id ms now).1 = .error r := by
  obtain ⟨r, hr⟩ := gss_always_abstains σ asset_id ms now
  exact ⟨r, by rw [hr]⟩

/-- C6 witness: the all-neutral snapshot yields a sideways direction
and the evaluation indeed rejects. -/
theorem c6_sideways_never_emits_witness :
    (analyze_trend_stability initState.learning_weights neutral_market).1 =
      TrendDirection.sideways ∧
    ∃ r, (generate_smart_signal initState "BTC" neutral_market 5).1 =
      .error r :=
  ⟨by with_unfolding_all decide,
    c6_sideways_never_emits initState "BTC" neutral_market 5
      (by with_unfolding_all decide)⟩

/-- C8: every rejection path of `generate_smart_signal` leaves the
analyzer state (active signals, performance stats, learning weights
and accuracy log) exactly as it was before the call. -/
theorem c8_reject_preserves_state (σ : AnalyzerState) (asset_id : String)
    (ms : MarketState) (now : ℚ) (r : AbstainReason)
    (_h : (generate_smart_signal σ asset_id ms now).1 = .error r) :
    (generate_smart_signal σ asset_id ms now).2 = σ := by
  obtain ⟨r2, hr⟩ := gss_always_abstains σ asset_id ms now
  rw [hr]

/-- C8 witness: the all-neutral snapshot is rejected (unclear trend)
and the state is unchanged. -/
theorem c8_reject_preserves_state_witness :
    (generate_smart_signal initState "ETH" neutral_market 9).1 =
      .error .unclearTrend ∧
    (generate_smart_signal initState "ETH" neutral_market 9).2 = initState :=
  ⟨by with_unfolding_all decide,
    c8_reject_preserves_state initState "ETH" neutral_market 9 .unclearTrend
      (by with_unfolding_all decide)⟩

end DHKY

namespace DHKY

/-! ## Weight-invariant lemmas (C2, C5) -/

/-- Renormalization makes the six weights sum to exactly 1. -/
lemma wsum_renormalized (v : Weights) (h : wsum v ≠ 0) :
    wsum (renormalized v) = 1 := by
  show v.rsi / wsum v + v.macd / wsum v + v.bollinger / wsum v +
    v.volume / wsum v + v.stochastic / wsum v + v.williams_r / wsum v = 1
  rw [div_add_div_same, div_add_div_same, div_add_div_same,
    div_add_div_same, div_add_div_same]
  exact div_self h

/-- If every component of `v` is at least `lo > 0` and the total is at
most `hi` with `0.05 * hi ≤ lo`, then the renormalized weights satisfy
the sum-1 and 0.05-floor invariant. -/
lemma weights_ok_renormalized (v : Weights) (lo hi : ℚ)
    (hl1 : lo ≤ v.rsi) (hl2 : lo ≤ v.macd) (hl3 : lo ≤ v.bollinger)
    (hl4 : lo ≤ v.volume) (hl5 : lo ≤ v.stochastic) (hl6 : lo ≤ v.williams_r)
    (hlo : 0 < lo) (hhi : wsum v ≤ hi) (hkey : 0.05 * hi ≤ lo) :
    weights_ok (renormalized v) := by
  have hT0 : 0 < wsum v := by
    have : 6 * lo ≤ wsum v := by unfold wsum; linarith
    linarith
  refine ⟨wsum_renormalized v hT0.ne', ?_, ?_, ?_, ?_, ?_, ?_⟩
  · show (0.05:ℚ) ≤ v.rsi / wsum v
    rw [le_div_iff₀ hT0]; linarith
  · show (0.05:ℚ) ≤ v.macd / wsum v
    rw [le_div_iff₀ hT0]; linarith
  · show (0.05:ℚ) ≤ v.bollinger / wsum v
    rw [le_div_iff₀ hT0]; linarith
  · show (0.05:ℚ) ≤ v.volume / wsum v
    rw [le_div_iff₀ hT0]; linarith
  · show (0.05:ℚ) ≤ v.stochastic / wsum v
    rw [le_div_iff₀ hT0]; linarith
  · show (0.05:ℚ) ≤ v.williams_r / wsum v
    rw [le_div_iff₀ hT0]; linarith

/-- One feedback call preserves the sum-1 and 0.05-floor invariant,
whatever the outcome. -/
lemma weights_ok_update (o : ℚ) (w : Weights) (h : weights_ok w) :
    weights_ok (update_indicator_weights o w) := by
  obtain ⟨hsum, h1, h2, h3, h4, h5, h6⟩ := h
  unfold wsum at hsum
  unfold update_indicator_weights
  by_cases ho : o > 0
  · rw [if_pos ho]
    refine weights_ok_renormalized (win_adjusted w) 0.06 1.06
      ?_ ?_ ?_ ?_ ?_ ?_ (by norm_num) ?_ (by norm_num)
    · exact le_min (by norm_num) (by linarith)
    · exact le_min (by norm_num) (by linarith)
    · exact le_min (by norm_num) (by linarith)
    · exact le_min (by norm_num) (by linarith)
    · exact le_min (by norm_num) (by linarith)
    · exact le_min (by norm_num) (by linarith)
    · show min 0.4 (w.rsi + 0.01) + min 0.4 (w.macd + 0.01) +
        min 0.4 (w.bollinger + 0.01) + min 0.4 (w.volume + 0.01) +
        min 0.4 (w.stochastic + 0.01) + min 0.4 (w.williams_r + 0.01) ≤ 1.06
      have m1 := min_le_right (0.4:ℚ) (w.rsi + 0.01)
      have m2 := min_le_right (0.4:ℚ) (w.macd + 0.01)
      have m3 := min_le_right (0.4:ℚ) (w.bollinger + 0.01)
      have m4 := min_le_right (0.4:ℚ) (w.volume + 0.01)
      have m5 := min_le_right (0.4:ℚ) (w.stochastic + 0.01)
      have m6 := min_le_right (0.4:ℚ) (w.williams_r + 0.01)
      linarith
  · rw [if_neg ho]
    refine weights_ok_renormalized (loss_adjusted w) 0.05 1
      ?_ ?_ ?_ ?_ ?_ ?_ (by norm_num) ?_ (by norm_num)
    · exact le_max_left _ _
    · exact le_max_left _ _
    · exact le_max_left _ _
    · exact le_max_left _ _
    · exact le_max_left _ _
    · exact le_max_left _ _
    · show max 0.05 (w.rsi - 0.01) + max 0.05 (w.macd - 0.01) +
        max 0.05 (w.bollinger - 0.01) + max 0.05 (w.volume - 0.01) +
        max 0.05 (w.stochastic - 0.01) + max 0.05 (w.williams_r - 0.01) ≤ 1
      have m1 : max (0.05:ℚ) (w.rsi - 0.01) ≤ w.rsi :=
        max_le h1 (by linarith)
      have m2 : max (0.05:ℚ) (w.macd - 0.01) ≤ w.macd :=
        max_le h2 (by linarith)
      have m3 : max (0.05:ℚ) (w.bollinger - 0.01) ≤ w.bollinger :=
        max_le h3 (by linarith)
      have m4 : max (0.05:ℚ) (w.volume - 0.01) ≤ w.volume :=
        max_le h4 (by linarith)
      have m5 : max (0.05:ℚ) (w.stochastic - 0.01) ≤ w.stochastic :=
        max_le h5 (by linarith)
      have m6 : max (0.05:ℚ) (w.williams_r - 0.01) ≤ w.williams_r :=
        max_le h6 (by linarith)
      linarith

/-- Folding any outcome sequence preserves the invariant. -/
lemma weights_ok_foldl (outs : List ℚ) :
    ∀ w : Weights, weights_ok w →
      weights_ok (outs.foldl (fun w o => update_indicator_weights o w) w) := by
  induction outs with
  | nil => exact fun w h => h
  | cons o rest ih =>
      intro w h
      simp only [List.foldl_cons]
      exact ih _ (weights_ok_update o w h)

end DHKY

namespace DHKY

set_option maxRecDepth 10000 in
/-- C2 counterexample: 26 consecutive losing-outcome feedback calls
from the default weights drive the (renormalized) macd weight to about
0.4056, strictly above the claimed 0.4 ceiling. -/
theorem c2_ceiling_counterexample :
    (0.4 : ℚ) < ((lossStep^[26]) defaultWeights).macd := by
  with_unfolding_all decide

/-- C2 (amended): for every sequence of outcome-feedback calls from
the default weights, after each call the weights sum to exactly 1 and
every weight is at least the 0.05 floor.  (The claimed 0.4 ceiling is
only applied before renormalization and can be exceeded after it, as
the counterexample shows.)  Any prefix of a call sequence is itself a
sequence, so this covers the state after every intermediate call. -/
theorem c2_weight_invariant_amended (outs : List ℚ) :
    weights_ok (outs.foldl (fun w o => update_indicator_weights o w)
      defaultWeights) :=
  weights_ok_foldl outs defaultWeights (by with_unfolding_all decide)

/-- C5 counterexample: on the very first Loss call from the default
weights, the macd weight does not decrease and is not at the floor: it
rises from 0.25 to 12/47 (about 0.2553), because renormalization
divides by the shrunken total 0.94. -/
theorem c5_macd_increases :
    defaultWeights.macd < (lossStep defaultWeights).macd ∧
    (lossStep defaultWeights).macd ≠ 0.05 := by
  with_unfolding_all decide

/-- C5 (amended): applying Loss five times consecutively from the
default weights, after each call the weights sum to 1 and respect the
0.05 floor, and at each call every weight is decremented by the 0.01
learning rate or clamped at the 0.05 floor BEFORE renormalization;
after renormalization an individual weight may increase. -/
theorem c5_five_losses_amended :
    ∀ i : Fin 5,
      weights_ok ((lossStep^[i.1 + 1]) defaultWeights) ∧
      decrements_or_floors ((lossStep^[i.1]) defaultWeights) := by
  with_unfolding_all decide

/-- C4: the lock duration used at emission,
`max(300, min(2400, 600 + volatility*1200 + (1 - stability)*600))`, is
monotone in the volatility quotient (all else equal) and always lands
in the [300, 2400] clamp range. -/
theorem c4_lock_duration_monotone (s vr₁ vr₂ : ℚ) (h : vr₁ ≤ vr₂) :
    lock_duration_of vr₁ s ≤ lock_duration_of vr₂ s ∧
    300 ≤ lock_duration_of vr₁ s ∧ lock_duration_of vr₁ s ≤ 2400 := by
  unfold lock_duration_of
  refine ⟨?_, le_max_left _ _, ?_⟩
  · exact max_le_max le_rfl (min_le_min le_rfl (by linarith))
  · exact max_le (by norm_num) (min_le_left _ _)

/-- C4 witness: concrete volatility quotients 0.01 ≤ 0.02 at stability
score 0.625. -/
theorem c4_lock_duration_monotone_witness :
    (1:ℚ)/100 ≤ 2/100 ∧
    (lock_duration_of (1/100) (5/8) ≤ lock_duration_of (2/100) (5/8) ∧
      300 ≤ lock_duration_of (1/100) (5/8) ∧
      lock_duration_of (1/100) (5/8) ≤ 2400) :=
  ⟨by norm_num, c4_lock_duration_monotone (5/8) (1/100) (2/100) (by norm_num)⟩

/-- C7 counterexample: a missing/NaN RSI value does NOT vote neutral
with confidence 0.5; every comparison against NaN is false, so the
vote chain falls through to the final else and votes bearish with
confidence 0.7. -/
theorem c7_nan_rsi_counterexample :
    rsi_vote none ≠ (Sentiment.neutral, 0.5) ∧
    rsi_vote none = (Sentiment.bearish, 0.7) := by
  with_unfolding_all decide

/-- C7 (amended): the vote step is total on degraded input (no
exception is possible), but the defaults are branch-dependent rather
than uniformly neutral-0.5: a missing/NaN MACD or Stochastic votes
neutral with 0.5, missing Bollinger inputs vote neutral with 0.6, and
a missing/NaN RSI votes bearish with 0.7. -/
theorem c7_degraded_votes_amended :
    rsi_vote none = (Sentiment.bearish, 0.7) ∧
    macd_vote none = (Sentiment.neutral, 0.5) ∧
    stochastic_vote none = (Sentiment.neutral, 0.5) ∧
    (∀ u l : Option ℚ, bollinger_vote none u l = (Sentiment.neutral, 0.6)) ∧
    (∀ p : Option ℚ, bollinger_vote p none none = (Sentiment.neutral, 0.6)) := by
  refine ⟨by with_unfolding_all decide, by with_unfolding_all decide,
    by with_unfolding_all decide, ?_, ?_⟩
  · intro u l
    rfl
  · intro p
    cases p <;> rfl

/-- C10: whenever the adjusted confidence has passed the 75 threshold,
the stored integer confidence `min(98, int(adjusted))` lies between 75
and 98 inclusive. -/
theorem c10_confidence_bounds (a : ℚ) (h : confidence_threshold ≤ a) :
    75 ≤ stored_confidence a ∧ stored_confidence a ≤ 98 := by
  have ha : (75:ℚ) ≤ a := h
  have h0 : ¬ a < 0 := by linarith
  unfold stored_confidence py_int
  rw [if_neg h0]
  constructor
  · refine le_min (by norm_num) ?_
    rw [Int.le_floor]
    push_cast
    linarith
  · exact min_le_left _ _

/-- C10 witness: adjusted confidence 80 passes the threshold and is
stored within [75, 98]. -/
theorem c10_confidence_bounds_witness :
    confidence_threshold ≤ (80:ℚ) ∧
    (75 ≤ stored_confidence 80 ∧ stored_confidence 80 ≤ 98) :=
  ⟨by norm_num [confidence_threshold],
    c10_confidence_bounds 80 (by norm_num [confidence_threshold])⟩

end DHKY

namespace DHKY

/-! ## Confluence-score lemmas (C9) -/

/-- Every RSI vote carries confidence at least 0.5. -/
lemma rsi_vote_conf_ge (x : Option ℚ) : 1/2 ≤ (rsi_vote x).2 := by
  unfold rsi_vote
  split_ifs <;> norm_num

/-- Every MACD vote carries confidence at least 0.5. -/
lemma macd_vote_conf_ge (x : Option ℚ) : 1/2 ≤ (macd_vote x).2 := by
  unfold macd_vote
  split_ifs <;> norm_num

/-- Every Bollinger vote carries confidence at least 0.5. -/
lemma bollinger_vote_conf_ge (p u l : Option ℚ) :
    1/2 ≤ (bollinger_vote p u l).2 := by
  unfold bollinger_vote
  split_ifs <;> norm_num

/-- Every Stochastic vote carries confidence at least 0.5. -/
lemma stochastic_vote_conf_ge (x : Option ℚ) :
    1/2 ≤ (stochastic_vote x).2 := by
  unfold stochastic_vote
  split_ifs <;> norm_num

/-- Each loop iteration adds the weighted confidence to exactly one
bucket, so the bucket total grows by exactly that amount. -/
lemma bucket_add_total (acc : Scores) (v : Sentiment × ℚ) (wt : ℚ) :
    scores_total (bucket_add acc v wt) = scores_total acc + v.2 * wt := by
  unfold bucket_add scores_total
  split_ifs <;> dsimp only <;> ring

/-- Each loop iteration only grows the individual buckets when the
added weighted confidence is nonnegative. -/
lemma bucket_add_components (acc : Scores) (v : Sentiment × ℚ) (wt : ℚ)
    (h : 0 ≤ v.2 * wt) :
    acc.bullish ≤ (bucket_add acc v wt).bullish ∧
    acc.bearish ≤ (bucket_add acc v wt).bearish ∧
    acc.neutral ≤ (bucket_add acc v wt).neutral := by
  unfold bucket_add
  split_ifs <;> refine ⟨?_, ?_, ?_⟩ <;> dsimp only <;> linarith

/-- Unfolded shape of the four-iteration vote loop. -/
lemma trend_scores_def (w : Weights) (ms : MarketState) :
    trend_scores w ms =
      bucket_add
        (bucket_add
          (bucket_add
            (bucket_add ⟨0, 0, 0⟩ (rsi_vote (some ms.rsi)) w.rsi)
            (macd_vote (some ms.macd)) w.macd)
          (bollinger_vote (some ms.price) (some ms.bollinger_upper)
            (some ms.bollinger_lower)) w.bollinger)
        (stochastic_vote (some ms.stochastic)) w.stochastic := rfl

/-- The divisor of the stability quotient equals the total weighted
confidence of the four votes. -/
lemma trend_scores_total_eq (w : Weights) (ms : MarketState) :
    scores_total (trend_scores w ms) =
      (rsi_vote (some ms.rsi)).2 * w.rsi +
      (macd_vote (some ms.macd)).2 * w.macd +
      (bollinger_vote (some ms.price) (some ms.bollinger_upper)
        (some ms.bollinger_lower)).2 * w.bollinger +
      (stochastic_vote (some ms.stochastic)).2 * w.stochastic := by
  rw [trend_scores_def, bucket_add_total, bucket_add_total,
    bucket_add_total, bucket_add_total]
  show (0:ℚ) + 0 + 0 + _ + _ + _ + _ = _
  ring

/-- All three buckets are nonnegative when the four relevant weights
are nonnegative. -/
lemma trend_scores_nonneg (w : Weights) (ms : MarketState)
    (hr : 0 ≤ w.rsi) (hm : 0 ≤ w.macd) (hb : 0 ≤ w.bollinger)
    (hs : 0 ≤ w.stochastic) :
    0 ≤ (trend_scores w ms).bullish ∧
    0 ≤ (trend_scores w ms).bearish ∧
    0 ≤ (trend_scores w ms).neutral := by
  have p1 : 0 ≤ (rsi_vote (some ms.rsi)).2 * w.rsi :=
    mul_nonneg (le_trans (by norm_num) (rsi_vote_conf_ge _)) hr
  have p2 : 0 ≤ (macd_vote (some ms.macd)).2 * w.macd :=
    mul_nonneg (le_trans (by norm_num) (macd_vote_conf_ge _)) hm
  have p3 : 0 ≤ (bollinger_vote (some ms.price) (some ms.bollinger_upper)
      (some ms.bollinger_lower)).2 * w.bollinger :=
    mul_nonneg (le_trans (by norm_num) (bollinger_vote_conf_ge _ _ _)) hb
  have p4 : 0 ≤ (stochastic_vote (some ms.stochastic)).2 * w.stochastic :=
    mul_nonneg (le_trans (by norm_num) (stochastic_vote_conf_ge _)) hs
  obtain ⟨a1, a2, a3⟩ := bucket_add_components ⟨0, 0, 0⟩
    (rsi_vote (some ms.rsi)) w.rsi p1
  obtain ⟨b1, b2, b3⟩ := bucket_add_components _
    (macd_vote (some ms.macd)) w.macd p2
  obtain ⟨c1, c2, c3⟩ := bucket_add_components _
    (bollinger_vote (some ms.price) (some ms.bollinger_upper)
      (some ms.bollinger_lower)) w.bollinger p3
  obtain ⟨d1, d2, d3⟩ := bucket_add_components _
    (stochastic_vote (some ms.stochastic)) w.stochastic p4
  rw [trend_scores_def]
  exact ⟨le_trans (le_trans (le_trans a1 b1) c1) d1,
    le_trans (le_trans (le_trans a2 b2) c2) d2,
    le_trans (le_trans (le_trans a3 b3) c3) d3⟩

/-- The second component returned by `analyze_trend_stability` is the
stability quotient in every branch. -/
lemma analyze_trend_stability_snd (w : Weights) (ms : MarketState) :
    (analyze_trend_stability w ms).2 =
      max (trend_scores w ms).bullish
        (max (trend_scores w ms).bearish (trend_scores w ms).neutral) /
      scores_total (trend_scores w ms) := by
  simp only [analyze_trend_stability]
  split_ifs <;> rfl

/-- C9: for every snapshot and any weights with the four voting
weights strictly positive (true of every state reachable from the
defaults, where all weights stay at or above 0.05), the divisor
`bullish + bearish + neutral` of the stability quotient is strictly
positive — the division cannot be a division by zero — and the
returned stability lies in (0, 1]. -/
theorem c9_stability_divisor_positive (w : Weights) (ms : MarketState)
    (hr : 0 < w.rsi) (hm : 0 < w.macd) (hb : 0 < w.bollinger)
    (hs : 0 < w.stochastic) :
    0 < scores_total (trend_scores w ms) ∧
    0 < (analyze_trend_stability w ms).2 ∧
    (analyze_trend_stability w ms).2 ≤ 1 := by
  obtain ⟨n1, n2, n3⟩ := trend_scores_nonneg w ms hr.le hm.le hb.le hs.le
  have htot : 0 < scores_total (trend_scores w ms) := by
    rw [trend_scores_total_eq]
    have q1 : 1/2 * w.rsi ≤ (rsi_vote (some ms.rsi)).2 * w.rsi :=
      mul_le_mul_of_nonneg_right (rsi_vote_conf_ge _) hr.le
    have q2 : 1/2 * w.macd ≤ (macd_vote (some ms.macd)).2 * w.macd :=
      mul_le_mul_of_nonneg_right (macd_vote_conf_ge _) hm.le
    have q3 : 1/2 * w.bollinger ≤ (bollinger_vote (some ms.price)
        (some ms.bollinger_upper) (some ms.bollinger_lower)).2 * w.bollinger :=
      mul_le_mul_of_nonneg_right (bollinger_vote_conf_ge _ _ _) hb.le
    have q4 : 1/2 * w.stochastic ≤
        (stochastic_vote (some ms.stochastic)).2 * w.stochastic :=
      mul_le_mul_of_nonneg_right (stochastic_vote_conf_ge _) hs.le
    linarith
  have hsum : scores_total (trend_scores w ms) =
      (trend_scores w ms).bullish + (trend_scores w ms).bearish +
      (trend_scores w ms).neutral := rfl
  have m1 : (trend_scores w ms).bullish ≤
      max (trend_scores w ms).bullish
        (max (trend_scores w ms).bearish (trend_scores w ms).neutral) :=
    le_max_left _ _
  have m2 : (trend_scores w ms).bearish ≤
      max (trend_scores w ms).bullish
        (max (trend_scores w ms).bearish (trend_scores w ms).neutral) :=
    le_trans (le_max_left _ _) (le_max_right _ _)
  have m3 : (trend_scores w ms).neutral ≤
      max (trend_scores w ms).bullish
        (max (trend_scores w ms).bearish (trend_scores w ms).neutral) :=
    le_trans (le_max_right _ _) (le_max_right _ _)
  have hM : 0 < max (trend_scores w ms).bullish
      (max (trend_scores w ms).bearish (trend_scores w ms).neutral) := by
    rw [hsum] at htot
    linarith
  have hMle : max (trend_scores w ms).bullish
      (max (trend_scores w ms).bearish (trend_scores w ms).neutral) ≤
      scores_total (trend_scores w ms) := by
    rw [hsum]
    exact max_le (by linarith) (max_le (by linarith) (by linarith))
  rw [analyze_trend_stability_snd]
  exact ⟨htot, div_pos hM htot, (div_le_one htot).mpr hMle⟩

/-- C9 witness: the default weights are strictly positive and the
Scenario A snapshot gives a positive divisor and a stability in
(0, 1]. -/
theorem c9_stability_divisor_positive_witness :
    ((0:ℚ) < defaultWeights.rsi ∧ (0:ℚ) < defaultWeights.macd ∧
      (0:ℚ) < defaultWeights.bollinger ∧ (0:ℚ) < defaultWeights.stochastic) ∧
    (0 < scores_total (trend_scores defaultWeights scenarioA_market) ∧
      0 < (analyze_trend_stability defaultWeights scenarioA_market).2 ∧
      (analyze_trend_stability defaultWeights scenarioA_market).2 ≤ 1) :=
  ⟨⟨by with_unfolding_all decide, by with_unfolding_all decide,
    by with_unfolding_all decide, by with_unfolding_all decide⟩,
    c9_stability_divisor_positive defaultWeights scenarioA_market
      (by with_unfolding_all decide) (by with_unfolding_all decide)
      (by with_unfolding_all decide) (by with_unfolding_all decide)⟩

end DHKY
